import Mathlib

/-
Verification of the auction bidding/closing core and the order/payment
settlement flow of the auction-marketplace backend.

The embedding mirrors the Python source:
  * backend/app/api/api_v1/endpoints/auction.py  (auction ledger, bidding, closing)
  * backend/app/api/api_v1/endpoints/orders.py   (order creation, shipping update, pay)
  * backend/app/services/payment_service.py      (gateway simulation, totals)
  * backend/app/services/bid_service.py          (bid-history time-left helper)
  * backend/app/models/auction.py, models/order.py (schema constraints)

Currency amounts (Numeric(12,2)) are modelled as integers (cents) and
timestamps as integers (epoch seconds); identifiers are naturals.  Database
rows loaded through the ORM relationships are carried explicitly in the
records.  Endpoint side effects (committed status transitions) are returned
as updated records alongside the HTTP result.
-/

/-- Auction status strings, per ck_auction_status in models/auction.py. -/
inductive AuctionStatus where
  | SCHEDULED
  | ACTIVE
  | ENDED
  | CANCELLED
deriving DecidableEq, Repr

/-- A row of the bids table (models/auction.py, class Bid). -/
structure Bid where
  bid_id : Nat
  auction_id : Nat
  bidder_id : Nat
  amount : Int
  placed_at : Int
deriving DecidableEq, Repr

/-- The fields of a catalogue item the auction/settlement core reads
(models/catalogue.py, class CatalogueItem). -/
structure CatalogueItem where
  item_id : Nat
  seller_id : Nat
  title : String
  description : String
  keywords : String
  category_id : Option Nat
  shipping_price_normal : Int
  shipping_price_expedited : Int
  shipping_time_days : Nat
deriving DecidableEq, Repr

/-- A row of the auctions table with its bids relationship loaded
(models/auction.py, class Auction).  auction_type is always FORWARD
(ck_auction_type) and is omitted; created_at/updated_at are bookkeeping
timestamps not read by any modelled operation. -/
structure Auction where
  auction_id : Nat
  item_id : Nat
  starting_price : Int
  min_increment : Int
  start_time : Int
  end_time : Int
  status : AuctionStatus
  winning_bid_id : Option Nat
  winning_bidder_id : Option Nat
  bids : List Bid
deriving DecidableEq, Repr

/-- auction.py, get_current_bidding_price: starting price if there are no
bids, else the maximum bid amount. -/
def get_current_bidding_price (auction : Auction) : Int :=
  match auction.bids with
  | [] => auction.starting_price
  | b :: bs => (bs.map Bid.amount).foldl max b.amount

/-- auction.py, `max(auction.bids, key=lambda b: b.amount)` : Python max
returns the first maximal element, so among equal amounts the earliest
inserted bid is kept. -/
def highest_bid (bids : List Bid) : Option Bid :=
  match bids with
  | [] => none
  | b :: bs => some (bs.foldl (fun best x => if x.amount > best.amount then x else best) b)

/-- auction.py, get_remaining_time: None unless ACTIVE; 0 once end_time has
passed; else whole seconds until end_time. -/
def get_remaining_time (auction : Auction) (now : Int) : Option Int :=
  if auction.status ≠ AuctionStatus.ACTIVE then none
  else if auction.end_time ≤ now then some 0
  else some (auction.end_time - now)

/-- The AuctionSchema response of GET /auctions/:id (schemas/auction.py,
class Auction); display-only joined objects (item, bidder names) omitted. -/
structure AuctionSchemaOut where
  auction_id : Nat
  item_id : Nat
  starting_price : Int
  min_increment : Int
  start_time : Int
  end_time : Int
  status : AuctionStatus
  winning_bid_id : Option Nat
  winning_bidder_id : Option Nat
  bids : List Bid
  current_highest_bid : Int
  current_highest_bidder_id : Option Nat
  remaining_time_seconds : Option Int
deriving DecidableEq, Repr

/-- auction.py, get_auction (GET /auctions/:id): a pure read — it reports
the stored status without any expiry check. -/
def get_auction (auction : Auction) (now : Int) : AuctionSchemaOut :=
  { auction_id := auction.auction_id
    item_id := auction.item_id
    starting_price := auction.starting_price
    min_increment := auction.min_increment
    start_time := auction.start_time
    end_time := auction.end_time
    status := auction.status
    winning_bid_id := auction.winning_bid_id
    winning_bidder_id := auction.winning_bidder_id
    bids := auction.bids
    current_highest_bid := get_current_bidding_price auction
    current_highest_bidder_id := (highest_bid auction.bids).map Bid.bidder_id
    remaining_time_seconds := get_remaining_time auction now }

namespace BidService

/-- bid_service.py, BidService._calculate_time_left: None unless the stored
status is ACTIVE and end_time is still in the future; note it returns None,
not 0, for an ACTIVE auction whose end_time has passed. -/
def calculate_time_left (auction : Auction) (now : Int) : Option Int :=
  if auction.status ≠ AuctionStatus.ACTIVE ∨ auction.end_time ≤ now then none
  else some (auction.end_time - now)

end BidService

/-- The distinct HTTPException sites of POST /auctions/bid (auction.py,
place_bid).  BidTooLow carries the three values interpolated into its
detail message, in message order: computed minimum, current price,
increment. -/
inductive BidError where
  | NotFound
  | AuctionEnded
  | NotStarted
  | InvalidState (current : AuctionStatus)
  | BidTooLow (min_bid : Int) (current_price : Int) (min_increment : Int)
  | SelfBid
deriving DecidableEq, Repr

/-- schemas/auction.py, class BidResponse (message field omitted, it is the
constant "Bid placed successfully"). -/
structure BidResponse where
  bid_id : Nat
  auction_id : Nat
  amount : Int
  placed_at : Int
  is_winning_bid : Bool
  current_highest_bid : Int
  current_highest_bidder_id : Nat
deriving DecidableEq, Repr

/-- auction.py, place_bid (POST /auctions/bid).  The first component is the
auction row as committed by the endpoint — status auto-transitions are
committed even when the bid itself is rejected.  new_bid_id stands for the
generated primary key. -/
def place_bid (auction : Auction) (item : CatalogueItem) (bidder_id : Nat)
    (amount : Int) (now : Int) (new_bid_id : Nat) :
    Auction × Except BidError BidResponse :=
  if auction.end_time ≤ now then
    (if auction.status ≠ AuctionStatus.ENDED then
       { auction with status := AuctionStatus.ENDED }
     else auction,
     Except.error BidError.AuctionEnded)
  else
    let auction :=
      if auction.start_time ≤ now ∧ auction.status = AuctionStatus.SCHEDULED then
        { auction with status := AuctionStatus.ACTIVE }
      else auction
    if auction.start_time > now then
      (auction, Except.error BidError.NotStarted)
    else if auction.status ≠ AuctionStatus.ACTIVE then
      (auction, Except.error (BidError.InvalidState auction.status))
    else
      let current_price := get_current_bidding_price auction
      let min_bid := current_price + auction.min_increment
      if amount < min_bid then
        (auction, Except.error (BidError.BidTooLow min_bid current_price auction.min_increment))
      else if item.seller_id = bidder_id then
        (auction, Except.error BidError.SelfBid)
      else
        let bid : Bid :=
          { bid_id := new_bid_id
            auction_id := auction.auction_id
            bidder_id := bidder_id
            amount := amount
            placed_at := now }
        ({ auction with bids := auction.bids ++ [bid] },
         Except.ok
           { bid_id := bid.bid_id
             auction_id := bid.auction_id
             amount := bid.amount
             placed_at := bid.placed_at
             is_winning_bid := true
             current_highest_bid := bid.amount
             current_highest_bidder_id := bidder_id })

/-- A bid-placement request event: caller identity, amount, request time and
the primary key the database will assign. -/
structure BidEvent where
  bidder_id : Nat
  amount : Int
  now : Int
  new_bid_id : Nat
deriving DecidableEq, Repr

/-- Replay a sequence of place_bid requests against an auction, keeping the
committed auction state after each request (rejected requests still commit
their status transitions, matching the endpoint). -/
def run_bids (auction : Auction) (item : CatalogueItem) (events : List BidEvent) : Auction :=
  events.foldl (fun a e => (place_bid a item e.bidder_id e.amount e.now e.new_bid_id).1) auction

/-- The admission invariant of the bid ledger: consecutive admitted bids
(in insertion = placed_at order) are at least min_increment apart, and the
first admitted bid is at least starting_price + min_increment. -/
def bidsOK (start inc : Int) (l : List Bid) : Prop :=
  List.Chain' (fun x y => x.amount + inc ≤ y.amount) l ∧
    (∀ b, l.head? = some b → start + inc ≤ b.amount)

/-- Stable insertion into a list sorted by descending amount: this models
`order_by(desc(Bid.amount))`, earlier rows staying first among equal
amounts. -/
def insert_bid_desc (b : Bid) : List Bid → List Bid
  | [] => [b]
  | h :: t => if h.amount ≤ b.amount then b :: h :: t else h :: insert_bid_desc b t

/-- Bids ordered by amount descending, as fetched by end_auction and
get_auction_status. -/
def sort_bids_desc : List Bid → List Bid
  | [] => []
  | b :: bs => insert_bid_desc b (sort_bids_desc bs)

/-- The winner-determination block shared verbatim by end_auction and
get_auction_status: set status ENDED and freeze winner fields from the head
of the amount-descending bid list (null when there are no bids). -/
def close_determine (auction : Auction) : Auction × Option Bid :=
  match sort_bids_desc auction.bids with
  | [] =>
    ({ auction with
        status := AuctionStatus.ENDED
        winning_bid_id := none
        winning_bidder_id := none }, none)
  | wb :: _ =>
    ({ auction with
        status := AuctionStatus.ENDED
        winning_bid_id := some wb.bid_id
        winning_bidder_id := some wb.bidder_id }, some wb)

/-- The errors of POST /auctions/:id/end before the close logic runs. -/
inductive EndError where
  | NotFound
  | Forbidden
deriving DecidableEq, Repr

/-- schemas/auction.py, class AuctionEndResponse. -/
structure AuctionEndResponse where
  auction_id : Nat
  status : AuctionStatus
  winning_bid_id : Option Nat
  winning_bidder_id : Option Nat
  final_price : Option Int
  message : String
  can_pay : Bool
deriving DecidableEq, Repr

/-- auction.py, end_auction (POST /auctions/:id/end).  If the auction is
already ENDED it returns the stored winner fields with can_pay hardcoded to
False; otherwise it closes the auction and reports can_pay true exactly when
bids exist.  The winner's display name in the message is outside the model,
so the message is kept at its constant skeleton. -/
def end_auction (auction : Auction) (item : CatalogueItem) (current_user_id : Nat) :
    Except EndError (Auction × AuctionEndResponse) :=
  if item.seller_id ≠ current_user_id then
    Except.error EndError.Forbidden
  else if auction.status = AuctionStatus.ENDED then
    Except.ok (auction,
      { auction_id := auction.auction_id
        status := auction.status
        winning_bid_id := auction.winning_bid_id
        winning_bidder_id := auction.winning_bidder_id
        final_price := some (match auction.bids with
          | [] => auction.starting_price
          | _ => get_current_bidding_price auction)
        message := "Auction has already ended"
        can_pay := false })
  else
    match close_determine auction with
    | (ended, some wb) =>
      Except.ok (ended,
        { auction_id := ended.auction_id
          status := ended.status
          winning_bid_id := ended.winning_bid_id
          winning_bidder_id := ended.winning_bidder_id
          final_price := some wb.amount
          message := "Auction ended. Winner: "
          can_pay := true })
    | (ended, none) =>
      Except.ok (ended,
        { auction_id := ended.auction_id
          status := ended.status
          winning_bid_id := ended.winning_bid_id
          winning_bidder_id := ended.winning_bidder_id
          final_price := some auction.starting_price
          message := "Auction ended with no bids"
          can_pay := false })

/-- auction.py, get_auction_status (GET /auctions/:id/status): applies the
lazy ACTIVE→ENDED transition when end_time has passed, then reports the
(possibly updated) row.  A SCHEDULED auction past its end_time is not
transitioned.  The first component is the committed auction row. -/
def get_auction_status (auction : Auction) (now : Int) :
    Auction × AuctionEndResponse :=
  let updated :=
    if auction.status = AuctionStatus.ACTIVE ∧ auction.end_time ≤ now then
      (close_determine auction).1
    else auction
  (updated,
    { auction_id := updated.auction_id
      status := updated.status
      winning_bid_id := updated.winning_bid_id
      winning_bidder_id := updated.winning_bidder_id
      final_price :=
        if updated.bids ≠ [] ∨ updated.status = AuctionStatus.ENDED then
          some (get_current_bidding_price updated)
        else none
      message :=
        if updated.status = AuctionStatus.ACTIVE then "Auction is active"
        else "Auction has ended"
      can_pay := updated.status = AuctionStatus.ENDED ∧ updated.bids ≠ [] })

/-- SQL ilike with percent wildcards on both sides: case-insensitive
substring match (splitOn yields at least two pieces exactly when the needle
occurs). -/
def likeContains (needle haystack : String) : Bool :=
  if needle = "" then true
  else (haystack.toLower.splitOn needle.toLower).length ≥ 2

/-- Python truthiness of an optional numeric filter value: None and 0 are
falsy, so a filter set to 0 is silently skipped. -/
def optTruthy (o : Option Int) : Bool :=
  match o with
  | none => false
  | some v => v ≠ 0

/-- schemas/auction.py, class AuctionSearchRequest. -/
structure AuctionSearchRequest where
  keyword : String
  category_id : Option Nat
  min_price : Option Int
  max_price : Option Int
  status : Option AuctionStatus
  skip : Nat
  limit : Nat
deriving DecidableEq, Repr

/-- schemas/auction.py, class AuctionItemSummary; display-only joined
strings (seller_name, category_name, item_images, bidder name) omitted. -/
structure AuctionItemSummary where
  auction_id : Nat
  item_id : Nat
  title : String
  description : String
  current_bidding_price : Int
  remaining_time_seconds : Option Int
  status : AuctionStatus
  current_highest_bidder_id : Option Nat
deriving DecidableEq, Repr

/-- schemas/auction.py, class AuctionSearchResponse. -/
structure AuctionSearchResponse where
  items : List AuctionItemSummary
  total_count : Nat
  has_more : Bool
deriving DecidableEq, Repr

/-- The response row built by search_auctions for one joined
auction/item row. -/
def auction_to_summary (row : Auction × CatalogueItem) (now : Int) : AuctionItemSummary :=
  { auction_id := row.1.auction_id
    item_id := row.2.item_id
    title := row.2.title
    description := row.2.description
    current_bidding_price := get_current_bidding_price row.1
    remaining_time_seconds := get_remaining_time row.1 now
    status := row.1.status
    current_highest_bidder_id := (highest_bid row.1.bids).map Bid.bidder_id }

/-- auction.py, search_auctions (POST /auctions/search) over the joined
auction × item rows: status, keyword and category query filters, then the
Python-side price-range loop, total count, slice pagination and summary
construction.  No expiry check occurs anywhere in this pipeline. -/
def search_auctions (rows : List (Auction × CatalogueItem))
    (req : AuctionSearchRequest) (now : Int) : AuctionSearchResponse :=
  let q1 :=
    match req.status with
    | some s => rows.filter (fun r : Auction × CatalogueItem => r.1.status = s)
    | none => rows
  let q2 :=
    if req.keyword ≠ "" then
      q1.filter (fun r : Auction × CatalogueItem =>
        likeContains req.keyword r.2.title ∨ likeContains req.keyword r.2.description ∨
          likeContains req.keyword r.2.keywords)
    else q1
  let q3 :=
    match req.category_id with
    | some c => q2.filter (fun r : Auction × CatalogueItem => r.2.category_id = some c)
    | none => q2
  let filtered :=
    q3.filter (fun r : Auction × CatalogueItem =>
      let current_price := get_current_bidding_price r.1
      (¬ (optTruthy req.min_price ∧ current_price < (req.min_price.getD 0))) ∧
        (¬ (optTruthy req.max_price ∧ current_price > (req.max_price.getD 0))))
  let total_count := filtered.length
  let paginated := (filtered.drop req.skip).take req.limit
  { items := paginated.map (fun r => auction_to_summary r now)
    total_count := total_count
    has_more := req.skip + req.limit < total_count }

/-- Order status strings, per ck_order_status in models/order.py. -/
inductive OrderStatus where
  | PENDING_PAYMENT
  | PAID
  | FAILED
  | CANCELLED
  | REFUNDED
deriving DecidableEq, Repr

/-- Shipping methods, per ck_shipping_method in models/order.py. -/
inductive ShippingMethod where
  | NORMAL
  | EXPEDITED
deriving DecidableEq, Repr

/-- Payment status strings, per ck_payment_status in models/order.py. -/
inductive PaymentStatus where
  | INITIATED
  | AUTHORIZED
  | CAPTURED
  | FAILED
  | REFUNDED
deriving DecidableEq, Repr

/-- Shipment status strings, per ck_shipment_status in models/order.py. -/
inductive ShipmentStatus where
  | PENDING
  | PROCESSING
  | SHIPPED
  | DELIVERED
  | CANCELLED
deriving DecidableEq, Repr

/-- A row of the orders table (models/order.py, class Order). -/
structure Order where
  order_id : Nat
  auction_id : Nat
  buyer_id : Nat
  item_id : Nat
  winning_bid_amount : Int
  shipping_method : ShippingMethod
  shipping_cost : Int
  total_amount : Int
  shipping_address_id : Nat
  status : OrderStatus
deriving DecidableEq, Repr

/-- A row of the payments table (models/order.py, class Payment); order_id
carries a UNIQUE constraint, so at most one row may exist per order. -/
structure Payment where
  payment_id : Nat
  order_id : Nat
  amount : Int
  currency : String
  status : PaymentStatus
  processor : String
  processor_txn_id : Option Nat
  failure_reason : Option String
deriving DecidableEq, Repr

/-- A row of the receipts table (models/order.py, class Receipt). -/
structure Receipt where
  order_id : Nat
  receipt_number : String
  total_paid : Int
  notes : String
deriving DecidableEq, Repr

/-- A row of the shipments table (models/order.py, class Shipment);
carrier/tracking stay null at creation. -/
structure Shipment where
  order_id : Nat
  estimated_days : Nat
  status : ShipmentStatus
deriving DecidableEq, Repr

/-- An address row, reduced to the two fields create_order filters on. -/
structure Address where
  address_id : Nat
  user_id : Nat
deriving DecidableEq, Repr

/-- The HTTPException sites of the orders endpoints plus the database
IntegrityError a constraint-violating insert raises at flush. -/
inductive OrdersError where
  | NotFound
  | Forbidden
  | AuctionNotEnded
  | OrderExists
  | AddressNotFound
  | WinningBidNotFound
  | WinnerConflict
  | InvalidStateOrder (current : OrderStatus)
  | PaymentRequired (reason : String)
  | IntegrityError
deriving DecidableEq, Repr

/-- payment_service.py, PaymentService.calculate_total: shipping cost keyed
on the method, total = winning bid + shipping. -/
def calculate_total (winning_bid_amount : Int) (shipping_method : ShippingMethod)
    (shipping_cost_normal shipping_cost_expedited : Int) : Int × Int :=
  let shipping_cost :=
    if shipping_method = ShippingMethod.EXPEDITED then shipping_cost_expedited
    else shipping_cost_normal
  (shipping_cost, winning_bid_amount + shipping_cost)

/-- orders.py, create_order (POST /orders).  The auction row comes with its
bids loaded so the winning-bid query is a lookup by bid_id; a null
winning_bidder_id would violate the NOT NULL constraint on orders.buyer_id
at insert, surfaced as IntegrityError. -/
def create_order (auction : Auction) (item : CatalogueItem)
    (existing_order : Option Order) (addresses : List Address)
    (current_user_id : Nat) (req_method : ShippingMethod)
    (req_address_id : Nat) (new_order_id : Nat) : Except OrdersError Order :=
  if auction.status ≠ AuctionStatus.ENDED then
    Except.error OrdersError.AuctionNotEnded
  else if existing_order.isSome then
    Except.error OrdersError.OrderExists
  else
    match addresses.find? (fun ad => ad.address_id = req_address_id ∧ ad.user_id = current_user_id) with
    | none => Except.error OrdersError.AddressNotFound
    | some _ =>
      match auction.winning_bid_id.bind (fun wid => auction.bids.find? (fun b => b.bid_id = wid)) with
      | none => Except.error OrdersError.WinningBidNotFound
      | some winning_bid =>
        match auction.winning_bidder_id with
        | none => Except.error OrdersError.IntegrityError
        | some buyer =>
          let sc_ta := calculate_total winning_bid.amount req_method
            item.shipping_price_normal item.shipping_price_expedited
          Except.ok
            { order_id := new_order_id
              auction_id := auction.auction_id
              buyer_id := buyer
              item_id := auction.item_id
              winning_bid_amount := winning_bid.amount
              shipping_method := req_method
              shipping_cost := sc_ta.1
              total_amount := sc_ta.2
              shipping_address_id := req_address_id
              status := OrderStatus.PENDING_PAYMENT }

/-- orders.py, update_shipping_method (PUT /orders/:id/shipping-method).
The source's PENDING_PAYMENT status check (lines 194-199) is indented
inside the buyer-mismatch branch after its raise and can never execute, so
the faithful embedding has no status check: any buyer-owned order is
recomputed and saved regardless of status. -/
def update_shipping_method (order : Order) (item : CatalogueItem)
    (current_user_id : Nat) (new_method : ShippingMethod) : Except OrdersError Order :=
  if order.buyer_id ≠ current_user_id then
    Except.error OrdersError.Forbidden
  else
    let sc_ta := calculate_total order.winning_bid_amount new_method
      item.shipping_price_normal item.shipping_price_expedited
    Except.ok
      { order with
          shipping_method := new_method
          shipping_cost := sc_ta.1
          total_amount := sc_ta.2 }

/-- Python str.startswith, evaluated on the character sequence. -/
def chars_startswith : List Char → List Char → Bool
  | _, [] => true
  | [], _ :: _ => false
  | c :: cs, p :: ps => (c = p) && chars_startswith cs ps

/-- The gateway simulation key: `card_number.startswith("4000")`. -/
def str_startswith (s pre : String) : Bool :=
  chars_startswith s.toList pre.toList

/-- payment_service.py, PaymentService.process_payment.  payments holds the
rows of the payments table with this order's order_id (at most one can be
committed, by the UNIQUE constraint).  If a CAPTURED row exists it is
returned untouched; if any other row exists the service inserts a second
row for the same order_id and the flush violates the UNIQUE constraint
(IntegrityError) — the commented intent of allowing a retry never
succeeds.  Otherwise the single attempt is committed: 4000-prefixed cards
deterministically fail (FAILED payment + FAILED order), every other card
captures (CAPTURED payment + PAID order).  new_payment_id and txn stand for
the generated primary key and processor transaction id. -/
def process_payment (order : Order) (payments : List Payment)
    (card_number : String) (new_payment_id : Nat) (txn : Nat) :
    Except OrdersError (Order × List Payment × Payment × Bool × Option String) :=
  match payments.head? with
  | some existing =>
    if existing.status = PaymentStatus.CAPTURED then
      Except.ok (order, payments, existing, true, none)
    else
      Except.error OrdersError.IntegrityError
  | none =>
    let should_fail := str_startswith card_number "4000"
    if should_fail then
      let payment : Payment :=
        { payment_id := new_payment_id
          order_id := order.order_id
          amount := order.total_amount
          currency := "USD"
          status := PaymentStatus.FAILED
          processor := "DUMMY"
          processor_txn_id := none
          failure_reason := some "Card declined by payment processor" }
      Except.ok ({ order with status := OrderStatus.FAILED },
        payments ++ [payment], payment, false, some "Card declined by payment processor")
    else
      let payment : Payment :=
        { payment_id := new_payment_id
          order_id := order.order_id
          amount := order.total_amount
          currency := "USD"
          status := PaymentStatus.CAPTURED
          processor := "DUMMY"
          processor_txn_id := some txn
          failure_reason := none }
      Except.ok ({ order with status := OrderStatus.PAID },
        payments ++ [payment], payment, true, none)

/-- schemas/order.py, class PayResponse. -/
structure PayResponse where
  order_id : Nat
  payment_id : Nat
  status : PaymentStatus
  message : String
  total_amount : Int
deriving DecidableEq, Repr

/-- The order aggregate as the pay endpoint sees it: the order row, the
payments rows for this order, and the (at most one) receipt and shipment
rows. -/
structure SettlementState where
  order : Order
  payments : List Payment
  receipt : Option Receipt
  shipment : Option Shipment
deriving DecidableEq, Repr

/-- orders.py, pay_order (POST /orders/:id/pay).  The first component is the
aggregate as committed when the request finishes: a declined payment is
committed (FAILED payment and order) before the 402 is raised, while the
guard-clause failures and the IntegrityError leave the aggregate unchanged.
date_str stands for the YYYYMMDD strftime of the current date. -/
def pay_order (st : SettlementState) (auction : Auction) (item : CatalogueItem)
    (current_user_id : Nat) (card_number : String) (date_str : String)
    (new_payment_id : Nat) (txn : Nat) :
    SettlementState × Except OrdersError PayResponse :=
  if st.order.buyer_id ≠ current_user_id then
    (st, Except.error OrdersError.Forbidden)
  else if auction.status ≠ AuctionStatus.ENDED then
    (st, Except.error OrdersError.AuctionNotEnded)
  else if auction.winning_bidder_id ≠ some current_user_id then
    (st, Except.error OrdersError.WinnerConflict)
  else
    match
      (if st.order.status = OrderStatus.PAID then
        (st.payments.filter (fun p => p.status = PaymentStatus.CAPTURED)).head?
      else none) with
    | some existing_payment =>
      (st, Except.ok
        { order_id := st.order.order_id
          payment_id := existing_payment.payment_id
          status := existing_payment.status
          message := "Payment already processed successfully"
          total_amount := st.order.total_amount })
    | none =>
      if st.order.status ≠ OrderStatus.PENDING_PAYMENT ∧ st.order.status ≠ OrderStatus.FAILED then
        (st, Except.error (OrdersError.InvalidStateOrder st.order.status))
      else
        match process_payment st.order st.payments card_number new_payment_id txn with
        | Except.error e => (st, Except.error e)
        | Except.ok (order2, payments2, payment, success, failure_reason) =>
          if success = false then
            ({ st with order := order2, payments := payments2 },
             Except.error (OrdersError.PaymentRequired (failure_reason.getD "Payment failed")))
          else
            let receipt2 :=
              match st.receipt with
              | some r => some r
              | none => some
                { order_id := st.order.order_id
                  receipt_number :=
                    "RCP-" ++ date_str ++ "-" ++ ((toString st.order.order_id).take 8).toUpper
                  total_paid := st.order.total_amount
                  notes := "Payment for order" }
            let shipment2 :=
              match st.shipment with
              | some s => some s
              | none => some
                { order_id := st.order.order_id
                  estimated_days := item.shipping_time_days
                  status := ShipmentStatus.PENDING }
            ({ order := order2, payments := payments2, receipt := receipt2, shipment := shipment2 },
             Except.ok
               { order_id := st.order.order_id
                 payment_id := payment.payment_id
                 status := payment.status
                 message := "Payment processed successfully"
                 total_amount := order2.total_amount })

/- Concrete fixtures used to instantiate the theorems below. -/

/-- A catalogue item sold by user 5, with the spec's scenario shipping
prices (normal 10, expedited 25). -/
def item5 : CatalogueItem :=
  { item_id := 2
    seller_id := 5
    title := "vintage lamp"
    description := "a lamp"
    keywords := "lamp"
    category_id := none
    shipping_price_normal := 10
    shipping_price_expedited := 25
    shipping_time_days := 3 }

/-- An auction still marked ACTIVE although its end_time (10) has passed. -/
def auctionExpiredActive : Auction :=
  { auction_id := 1
    item_id := 2
    starting_price := 100
    min_increment := 50
    start_time := 0
    end_time := 10
    status := AuctionStatus.ACTIVE
    winning_bid_id := none
    winning_bidder_id := none
    bids := [] }

/-- The single admitted bid of the ended auction below. -/
def bid1050 : Bid :=
  { bid_id := 1, auction_id := 2, bidder_id := 7, amount := 1050, placed_at := 5 }

/-- An auction already ENDED with a recorded winner (bid 1, bidder 7). -/
def auctionEndedWithWinner : Auction :=
  { auction_id := 2
    item_id := 2
    starting_price := 1000
    min_increment := 50
    start_time := 0
    end_time := 10
    status := AuctionStatus.ENDED
    winning_bid_id := some 1
    winning_bidder_id := some 7
    bids := [bid1050] }

/-- An order for that auction awaiting payment: winning bid 150, NORMAL
shipping 10, total 160, buyer 7. -/
def orderPending : Order :=
  { order_id := 11
    auction_id := 2
    buyer_id := 7
    item_id := 2
    winning_bid_amount := 150
    shipping_method := ShippingMethod.NORMAL
    shipping_cost := 10
    total_amount := 160
    shipping_address_id := 4
    status := OrderStatus.PENDING_PAYMENT }

/-- The captured payment row of the already-paid order below. -/
def paymentCaptured : Payment :=
  { payment_id := 21
    order_id := 11
    amount := 160
    currency := "USD"
    status := PaymentStatus.CAPTURED
    processor := "DUMMY"
    processor_txn_id := some 77
    failure_reason := none }

/-- The paid order aggregate: PAID order, captured payment, receipt and
shipment already issued. -/
def statePaid : SettlementState :=
  { order := { orderPending with status := OrderStatus.PAID }
    payments := [paymentCaptured]
    receipt := some
      { order_id := 11, receipt_number := "RCP-20260101-11", total_paid := 160
        notes := "Payment for order" }
    shipment := some
      { order_id := 11, estimated_days := 3, status := ShipmentStatus.PENDING } }

/-- The pending order aggregate before any payment attempt. -/
def statePending : SettlementState :=
  { order := orderPending, payments := [], receipt := none, shipment := none }

/-- An ACTIVE zero-increment auction (min_increment is unconstrained in the
model and the schema: Numeric(12,2) with default 1.00 and no lower bound). -/
def auctionIncZero : Auction :=
  { auction_id := 3
    item_id := 2
    starting_price := 50
    min_increment := 0
    start_time := 0
    end_time := 100
    status := AuctionStatus.ACTIVE
    winning_bid_id := none
    winning_bidder_id := none
    bids := [] }

/-- The spec's bidding scenario: starting price 1000, min_increment 50,
ACTIVE with no bids yet. -/
def auctionForwardScenario : Auction :=
  { auction_id := 4
    item_id := 2
    starting_price := 1000
    min_increment := 50
    start_time := 0
    end_time := 100
    status := AuctionStatus.ACTIVE
    winning_bid_id := none
    winning_bidder_id := none
    bids := [] }

/- Theorems. -/

/-- C9.  The claim says time_left_seconds equals max(0, end_time − now) for
an ACTIVE auction, in particular 0 (not null) once end_time has passed; the
Bid History helper instead returns null for an ACTIVE auction whose
end_time has passed. -/
theorem bid_history_time_left_zero_cex :
    auctionExpiredActive.status = AuctionStatus.ACTIVE ∧
      auctionExpiredActive.end_time ≤ 20 ∧
      BidService.calculate_time_left auctionExpiredActive 20 = none ∧
      BidService.calculate_time_left auctionExpiredActive 20 ≠ some 0 := by
  refine ⟨rfl, by decide, rfl, by decide⟩

/-- C9 (amended).  time_left_seconds is null unless the auction's stored
status is ACTIVE and its end_time is strictly in the future; when non-null
it equals end_time − now in whole seconds, which is strictly positive (so
never negative, and never 0-for-expired: expired ACTIVE auctions yield
null). -/
theorem bid_history_time_left_spec (auction : Auction) (now : Int) :
    (BidService.calculate_time_left auction now = none ↔
      (auction.status ≠ AuctionStatus.ACTIVE ∨ auction.end_time ≤ now)) ∧
      (∀ t, BidService.calculate_time_left auction now = some t →
        t = auction.end_time - now ∧ 0 < t) := by
  unfold BidService.calculate_time_left
  split
  · next h => exact ⟨by simp [h], by simp⟩
  · next h =>
    push_neg at h
    refine ⟨by simp [h.1, h.2, not_le.mpr h.2], ?_⟩
    intro t ht
    have : auction.end_time - now = t := by simpa using ht
    omega

/-- C9 (witness for the amended theorem at a concrete input). -/
theorem bid_history_time_left_spec_witness :
    BidService.calculate_time_left auctionIncZero 40 = some 60 ∧ (0:Int) < 60 := by
  refine ⟨rfl, ?_⟩
  have h := (bid_history_time_left_spec auctionIncZero 40).2 60 rfl
  exact h.2

/-- C5.  The claim says update_shipping_method fails with InvalidState on
any order not in PENDING_PAYMENT; in the code the status guard (orders.py
lines 194-199) is indented inside the buyer-mismatch branch after its
raise and never executes, so the buyer of a PAID order successfully changes
the shipping method and the totals. -/
theorem update_shipping_on_paid_order_succeeds :
    ({ orderPending with status := OrderStatus.PAID } : Order).status ≠
        OrderStatus.PENDING_PAYMENT ∧
      update_shipping_method { orderPending with status := OrderStatus.PAID }
          item5 7 ShippingMethod.EXPEDITED =
        Except.ok
          { orderPending with
              status := OrderStatus.PAID
              shipping_method := ShippingMethod.EXPEDITED
              shipping_cost := 25
              total_amount := 175 } := by
  exact ⟨by decide, rfl⟩

/-- C6.  Every order returned by create_order, and every order returned by
update_shipping_method, satisfies total_amount = winning_bid_amount +
shipping_cost with shipping_cost = the item's expedited price when the
requested method is EXPEDITED and its normal price otherwise. -/
theorem order_total_identity :
    (∀ (auction : Auction) (item : CatalogueItem) (existing_order : Option Order)
        (addresses : List Address) (current_user_id : Nat) (req_method : ShippingMethod)
        (req_address_id new_order_id : Nat) (o : Order),
      create_order auction item existing_order addresses current_user_id req_method
          req_address_id new_order_id = Except.ok o →
        o.total_amount = o.winning_bid_amount + o.shipping_cost ∧
          o.shipping_cost =
            (if req_method = ShippingMethod.EXPEDITED then item.shipping_price_expedited
             else item.shipping_price_normal)) ∧
      (∀ (order : Order) (item : CatalogueItem) (current_user_id : Nat)
          (new_method : ShippingMethod) (o : Order),
        update_shipping_method order item current_user_id new_method = Except.ok o →
          o.total_amount = o.winning_bid_amount + o.shipping_cost ∧
            o.shipping_cost =
              (if new_method = ShippingMethod.EXPEDITED then item.shipping_price_expedited
               else item.shipping_price_normal)) := by
  constructor
  · intro auction item existing_order addresses current_user_id req_method
      req_address_id new_order_id o h
    unfold create_order at h
    split_ifs at h
    repeat' split at h
    all_goals first
      | exact Except.noConfusion h
      | (simp only [Except.ok.injEq] at h; subst h; simp [calculate_total])
  · intro order item current_user_id new_method o h
    unfold update_shipping_method at h
    split_ifs at h
    simp only [Except.ok.injEq] at h
    subst h
    simp [calculate_total]

/-- C6 (witness): creating an order for the ended auction with NORMAL
shipping yields total 1060 = 1050 + 10, satisfying the identity. -/
theorem order_total_identity_witness :
    ∃ o : Order,
      create_order auctionEndedWithWinner item5 none [⟨4, 7⟩] 7 ShippingMethod.NORMAL 4 11 =
          Except.ok o ∧
        o.total_amount = o.winning_bid_amount + o.shipping_cost := by
  refine ⟨_, rfl, ?_⟩
  exact (order_total_identity.1 auctionEndedWithWinner item5 none [⟨4, 7⟩] 7
    ShippingMethod.NORMAL 4 11 _ rfl).1

/-- C2.  Paying an order that is already PAID and has a CAPTURED payment is
a no-op success: the endpoint returns the stored payment's id and status and
leaves the whole aggregate — order, payments, receipt, shipment — exactly as
it was, so no second Receipt or Shipment can be created. -/
theorem pay_captured_idempotent (st : SettlementState) (auction : Auction)
    (item : CatalogueItem) (current_user_id : Nat) (card_number date_str : String)
    (new_payment_id txn : Nat) (p : Payment)
    (hbuyer : st.order.buyer_id = current_user_id)
    (hended : auction.status = AuctionStatus.ENDED)
    (hwinner : auction.winning_bidder_id = some current_user_id)
    (hpaid : st.order.status = OrderStatus.PAID)
    (hcap : (st.payments.filter (fun p => p.status = PaymentStatus.CAPTURED)).head? = some p) :
    pay_order st auction item current_user_id card_number date_str new_payment_id txn =
      (st, Except.ok
        { order_id := st.order.order_id
          payment_id := p.payment_id
          status := p.status
          message := "Payment already processed successfully"
          total_amount := st.order.total_amount }) := by
  unfold pay_order
  rw [if_neg (by simp [hbuyer]), if_neg (by simp [hended]), if_neg (by simp [hwinner]),
    if_pos hpaid, hcap]

/-- C2 (witness): re-paying the already-paid aggregate returns payment 21
unchanged and the unchanged aggregate. -/
theorem pay_captured_idempotent_witness :
    pay_order statePaid auctionEndedWithWinner item5 7 "5105105105105100" "20260102" 22 78 =
      (statePaid, Except.ok
        { order_id := 11
          payment_id := 21
          status := PaymentStatus.CAPTURED
          message := "Payment already processed successfully"
          total_amount := 160 }) := by
  exact pay_captured_idempotent statePaid auctionEndedWithWinner item5 7
    "5105105105105100" "20260102" 22 78 paymentCaptured rfl rfl rfl rfl rfl

/-- C3.  Paying the pending order with a 4000-prefixed card commits a FAILED
payment with its decline reason and marks the order FAILED, creating no
receipt or shipment; but the subsequent retry with a valid card, which the
claim (and the service's own retry comment) says must succeed, instead hits
the UNIQUE constraint on payments.order_id when the service inserts a
second payment row, surfacing as an IntegrityError rather than a capture. -/
theorem pay_declined_then_retry_behavior :
    (pay_order statePending auctionEndedWithWinner item5 7 "4000123456789012" "20260101" 21 77).1.order.status
        = OrderStatus.FAILED ∧
      (pay_order statePending auctionEndedWithWinner item5 7 "4000123456789012" "20260101" 21 77).1.payments =
        [{ payment_id := 21
           order_id := 11
           amount := 160
           currency := "USD"
           status := PaymentStatus.FAILED
           processor := "DUMMY"
           processor_txn_id := none
           failure_reason := some "Card declined by payment processor" }] ∧
      (pay_order statePending auctionEndedWithWinner item5 7 "4000123456789012" "20260101" 21 77).1.receipt = none ∧
      (pay_order statePending auctionEndedWithWinner item5 7 "4000123456789012" "20260101" 21 77).1.shipment = none ∧
      (pay_order statePending auctionEndedWithWinner item5 7 "4000123456789012" "20260101" 21 77).2 =
        Except.error (OrdersError.PaymentRequired "Card declined by payment processor") ∧
      (pay_order
          (pay_order statePending auctionEndedWithWinner item5 7 "4000123456789012" "20260101" 21 77).1
          auctionEndedWithWinner item5 7 "5105105105105100" "20260102" 22 78).2 =
        Except.error OrdersError.IntegrityError := by
  exact ⟨rfl, rfl, rfl, rfl, rfl, rfl⟩

/-- C8.  A bid by the item's seller is always rejected, whatever the amount
and timing: place_bid returns an error and the stored bid list is unchanged
(only lazy status transitions may be committed). -/
theorem self_bid_always_rejected (auction : Auction) (item : CatalogueItem)
    (bidder_id : Nat) (amount : Int) (now : Int) (new_bid_id : Nat)
    (hseller : bidder_id = item.seller_id) :
    ((place_bid auction item bidder_id amount now new_bid_id).2).isOk = false ∧
      ((place_bid auction item bidder_id amount now new_bid_id).1).bids = auction.bids := by
  subst hseller
  simp only [place_bid]
  repeat' split
  all_goals simp_all [Except.isOk, Except.toBool]

/-- C8 (witness): the seller of item 2 (user 5) bidding 10000 on the
zero-increment active auction is rejected with the bid list unchanged. -/
theorem self_bid_always_rejected_witness :
    ((place_bid auctionIncZero item5 item5.seller_id 10000 20 9).2).isOk = false ∧
      ((place_bid auctionIncZero item5 item5.seller_id 10000 20 9).1).bids = auctionIncZero.bids :=
  self_bid_always_rejected auctionIncZero item5 item5.seller_id 10000 20 9 rfl

/-- C10.  Every successful place_bid reports the new bid as the auction's
leader — current_highest_bid is the new amount, current_highest_bidder_id is
the caller, is_winning_bid is true; and in the min_increment = 0 tie case the
new bid merely ties the previous maximum yet the response still reports the
caller as leading, while a get_auction read of the committed row reports the
earlier bidder (Python max keeps the first maximal element). -/
theorem bid_response_reports_new_bid_as_leader :
    (∀ (auction : Auction) (item : CatalogueItem) (bidder_id : Nat) (amount now : Int)
        (new_bid_id : Nat) (resp : BidResponse),
      (place_bid auction item bidder_id amount now new_bid_id).2 = Except.ok resp →
        resp.current_highest_bid = amount ∧ resp.current_highest_bidder_id = bidder_id ∧
          resp.is_winning_bid = true ∧ resp.amount = amount) ∧
      ((place_bid (run_bids auctionIncZero item5 [⟨2, 100, 10, 1⟩]) item5 3 100 20 2).2 =
          Except.ok
            { bid_id := 2
              auction_id := 3
              amount := 100
              placed_at := 20
              is_winning_bid := true
              current_highest_bid := 100
              current_highest_bidder_id := 3 } ∧
        (get_auction ((place_bid (run_bids auctionIncZero item5 [⟨2, 100, 10, 1⟩]) item5 3 100 20 2).1)
            30).current_highest_bidder_id = some 2) := by
  constructor
  · intro auction item bidder_id amount now new_bid_id resp h
    simp only [place_bid] at h
    repeat' split at h
    all_goals try exact Except.noConfusion h
    all_goals
      have h2 := Except.ok.inj h
      subst h2
      exact ⟨rfl, rfl, rfl, rfl⟩
  · exact ⟨rfl, rfl⟩

/-- Closing always stamps status ENDED, in both the with-bids and no-bids
branches. -/
theorem close_determine_status (auction : Auction) :
    ((close_determine auction).1).status = AuctionStatus.ENDED := by
  unfold close_determine
  rcases sort_bids_desc auction.bids with _ | ⟨wb, rest⟩ <;> rfl

/-- Every summary returned by the search pipeline is the summary of one of
the input rows (pagination and the four filters only ever drop rows). -/
theorem search_items_from_rows (rows : List (Auction × CatalogueItem))
    (req : AuctionSearchRequest) (now : Int) (s : AuctionItemSummary)
    (hs : s ∈ (search_auctions rows req now).items) :
    ∃ r ∈ rows, s = auction_to_summary r now := by
  simp only [search_auctions, List.mem_map] at hs
  obtain ⟨r, hr, rfl⟩ := hs
  refine ⟨r, ?_, rfl⟩
  have hr2 := List.drop_subset _ _ (List.take_subset _ _ hr)
  have hr3 := List.mem_of_mem_filter hr2
  rcases hcat : req.category_id with _ | c <;> rw [hcat] at hr3
  all_goals
    first
      | (replace hr3 := List.mem_of_mem_filter hr3)
      | skip
  all_goals by_cases hk : req.keyword = ""
  all_goals simp only [hk, if_pos, if_neg, ite_not, reduceIte, ne_eq, not_true_eq_false,
    not_false_eq_true] at hr3
  all_goals
    first
      | (replace hr3 := List.mem_of_mem_filter hr3)
      | skip
  all_goals rcases hst : req.status with _ | st <;> rw [hst] at hr3
  all_goals
    first
      | exact List.mem_of_mem_filter hr3
      | exact hr3

/-- C1.  The claim says no read path may return ACTIVE once end_time has
passed; get_auction performs no expiry check and returns the stored ACTIVE
status for an auction whose end_time (10) is before the observation time
(20). -/
theorem get_auction_expired_active_cex :
    auctionExpiredActive.end_time ≤ 20 ∧
      (get_auction auctionExpiredActive 20).status = AuctionStatus.ACTIVE := by
  exact ⟨by decide, rfl⟩

/-- C1 (amended).  Only get_auction_status applies the lazy expiry
transition (and only ACTIVE→ENDED), so it never reports ACTIVE past
end_time; get_auction and search_auctions return the stored status with no
expiry check, so an ACTIVE auction past its end_time is still read as
ACTIVE on those paths. -/
theorem lazy_expiry_read_paths :
    (∀ (auction : Auction) (now : Int), auction.end_time ≤ now →
      ((get_auction_status auction now).2).status ≠ AuctionStatus.ACTIVE) ∧
      (∀ (auction : Auction) (now : Int), (get_auction auction now).status = auction.status) ∧
      (∀ (rows : List (Auction × CatalogueItem)) (req : AuctionSearchRequest) (now : Int)
          (s : AuctionItemSummary), s ∈ (search_auctions rows req now).items →
        ∃ r ∈ rows, s.status = r.1.status) := by
  refine ⟨?_, fun auction now => rfl, ?_⟩
  · intro auction now hend
    unfold get_auction_status
    by_cases hact : auction.status = AuctionStatus.ACTIVE
    · simp only [hact, hend, and_self, if_pos, reduceIte]
      rw [close_determine_status]
      decide
    · simp only [hact, false_and, if_neg, reduceIte, not_false_eq_true]
      simpa using hact
  · intro rows req now s hs
    obtain ⟨r, hr, rfl⟩ := search_items_from_rows rows req now s hs
    exact ⟨r, hr, rfl⟩

/-- C1 (witness for the amended theorem at concrete inputs). -/
theorem lazy_expiry_read_paths_witness :
    ((get_auction_status auctionExpiredActive 20).2).status ≠ AuctionStatus.ACTIVE ∧
      ∃ r ∈ [(auctionExpiredActive, item5)], (auction_to_summary (auctionExpiredActive, item5) 20).status = r.1.status := by
  constructor
  · exact lazy_expiry_read_paths.1 auctionExpiredActive 20 (by decide)
  · refine lazy_expiry_read_paths.2.2 [(auctionExpiredActive, item5)]
      { keyword := "", category_id := none, min_price := none, max_price := none,
        status := none, skip := 0, limit := 20 } 20 _ ?_
    simp [search_auctions, auction_to_summary, optTruthy]

/-- Inserting a bid never yields the empty list. -/
theorem insert_bid_desc_ne_nil (b : Bid) (l : List Bid) : insert_bid_desc b l ≠ [] := by
  cases l with
  | nil => simp [insert_bid_desc]
  | cons h t =>
    simp only [insert_bid_desc]
    split <;> simp

/-- The amount-descending ordering of the bids is empty exactly when there
are no bids. -/
theorem sort_bids_desc_eq_nil_iff (l : List Bid) : sort_bids_desc l = [] ↔ l = [] := by
  cases l with
  | nil => simp [sort_bids_desc]
  | cons b bs => simp [sort_bids_desc, insert_bid_desc_ne_nil]

/-- C4.  The claim says every close result has can_pay true iff a winning
bid exists; but re-closing the already-ENDED auction (stored winner: bid 1
by bidder 7, one bid on record) returns can_pay = false. -/
theorem end_auction_can_pay_cex :
    auctionEndedWithWinner.winning_bid_id = some 1 ∧
      auctionEndedWithWinner.bids ≠ [] ∧
      Except.map (fun p => p.2.can_pay) (end_auction auctionEndedWithWinner item5 5) =
        Except.ok false := by
  exact ⟨rfl, by decide, rfl⟩

/-- C4 (amended).  Seller-invoked close is idempotent: on an already-ENDED
auction it returns the stored auction and winner fields unchanged with no
re-determination — but with can_pay hardcoded to false; only on a first
close (status not ENDED) is can_pay true iff a bid (hence a winner) exists,
with the winner fields frozen accordingly. -/
theorem end_auction_spec (auction : Auction) (item : CatalogueItem)
    (current_user_id : Nat) (hseller : item.seller_id = current_user_id) :
    (auction.status = AuctionStatus.ENDED →
      ∃ resp, end_auction auction item current_user_id = Except.ok (auction, resp) ∧
        resp.winning_bid_id = auction.winning_bid_id ∧
        resp.winning_bidder_id = auction.winning_bidder_id ∧
        resp.can_pay = false) ∧
      (auction.status ≠ AuctionStatus.ENDED →
        ∃ ended resp, end_auction auction item current_user_id = Except.ok (ended, resp) ∧
          ended.status = AuctionStatus.ENDED ∧
          (resp.can_pay = true ↔ auction.bids ≠ []) ∧
          (resp.winning_bid_id.isSome = true ↔ auction.bids ≠ [])) := by
  constructor
  · intro hended
    refine ⟨{ auction_id := auction.auction_id
              status := auction.status
              winning_bid_id := auction.winning_bid_id
              winning_bidder_id := auction.winning_bidder_id
              final_price := some (match auction.bids with
                | [] => auction.starting_price
                | _ => get_current_bidding_price auction)
              message := "Auction has already ended"
              can_pay := false }, ?_, rfl, rfl, rfl⟩
    unfold end_auction
    rw [if_neg (by simp [hseller]), if_pos hended]
  · intro hnot
    unfold end_auction
    rw [if_neg (by simp [hseller]), if_neg hnot]
    rcases hsort : sort_bids_desc auction.bids with _ | ⟨wb, rest⟩
    · have hnil : auction.bids = [] := (sort_bids_desc_eq_nil_iff auction.bids).mp hsort
      simp only [close_determine, hsort]
      exact ⟨_, _, rfl, rfl, by simp [hnil], by simp [hnil]⟩
    · have hne : auction.bids ≠ [] := by
        intro hcon
        rw [hcon] at hsort
        simp [sort_bids_desc] at hsort
      simp only [close_determine, hsort]
      exact ⟨_, _, rfl, rfl, by simp [hne], by simp [hne]⟩

/-- C4 (witness): re-closing the ended auction returns it unchanged with
can_pay false, and first-closing a still-ACTIVE copy reports can_pay true
iff its bid list is nonempty. -/
theorem end_auction_spec_witness :
    (∃ resp, end_auction auctionEndedWithWinner item5 5 = Except.ok (auctionEndedWithWinner, resp) ∧
        resp.winning_bid_id = auctionEndedWithWinner.winning_bid_id ∧
        resp.winning_bidder_id = auctionEndedWithWinner.winning_bidder_id ∧
        resp.can_pay = false) ∧
      (∃ ended resp,
        end_auction { auctionEndedWithWinner with status := AuctionStatus.ACTIVE } item5 5 =
            Except.ok (ended, resp) ∧
          ended.status = AuctionStatus.ENDED ∧
          (resp.can_pay = true ↔
            ({ auctionEndedWithWinner with status := AuctionStatus.ACTIVE } : Auction).bids ≠ []) ∧
          (resp.winning_bid_id.isSome = true ↔
            ({ auctionEndedWithWinner with status := AuctionStatus.ACTIVE } : Auction).bids ≠ [])) := by
  constructor
  · exact (end_auction_spec auctionEndedWithWinner item5 5 rfl).1 rfl
  · exact (end_auction_spec { auctionEndedWithWinner with status := AuctionStatus.ACTIVE }
      item5 5 rfl).2 (by decide)

/-- The current bidding price ignores the status field. -/
theorem current_price_set_status (auction : Auction) (s : AuctionStatus) :
    get_current_bidding_price { auction with status := s } = get_current_bidding_price auction :=
  rfl

/-- A left max-fold dominates its initial accumulator. -/
theorem le_foldl_max (l : List Int) (a : Int) : a ≤ l.foldl max a := by
  induction l generalizing a with
  | nil => simp
  | cons x xs ih => exact le_trans (le_max_left a x) (ih (max a x))

/-- A left max-fold dominates every list element. -/
theorem mem_le_foldl_max (l : List Int) (a : Int) : ∀ x ∈ l, x ≤ l.foldl max a := by
  induction l generalizing a with
  | nil => simp
  | cons y ys ih =>
    intro x hx
    rcases List.mem_cons.mp hx with hx | hx
    · subst hx
      exact le_trans (le_max_right a x) (le_foldl_max ys (max a x))
    · exact ih (max a y) x hx

/-- The current bidding price dominates every stored bid amount. -/
theorem amount_le_current (auction : Auction) :
    ∀ b ∈ auction.bids, b.amount ≤ get_current_bidding_price auction := by
  intro b hb
  rcases hl : auction.bids with _ | ⟨b0, bs⟩
  · rw [hl] at hb
    cases hb
  · rw [hl] at hb
    simp only [get_current_bidding_price, hl]
    rcases List.mem_cons.mp hb with h | h
    · subst h
      exact le_foldl_max _ _
    · exact mem_le_foldl_max _ _ _ (List.mem_map_of_mem Bid.amount h)

/-- With no bids the current price is the starting price. -/
theorem current_of_no_bids (auction : Auction) (h : auction.bids = []) :
    get_current_bidding_price auction = auction.starting_price := by
  simp only [get_current_bidding_price, h]

/-- Appending a sufficiently large bid preserves the admission invariant. -/
theorem bidsOK_append (start inc : Int) (l : List Bid) (nb : Bid)
    (h : bidsOK start inc l)
    (hfirst : l = [] → start + inc ≤ nb.amount)
    (hstep : ∀ x ∈ l, x.amount + inc ≤ nb.amount) :
    bidsOK start inc (l ++ [nb]) := by
  constructor
  · refine List.chain'_append.mpr ⟨h.1, List.chain'_singleton _, ?_⟩
    intro x hx y hy
    simp only [List.head?_cons, Option.mem_def, Option.some.injEq] at hy
    subst hy
    exact hstep x (List.mem_of_mem_getLast? hx)
  · intro b hb
    cases l with
    | nil =>
      simp only [List.nil_append, List.head?_cons, Option.some.injEq] at hb
      subst hb
      exact hfirst rfl
    | cons c cs =>
      simp only [List.cons_append, List.head?_cons, Option.some.injEq] at hb
      subst hb
      exact h.2 c rfl

/-- One place_bid request keeps starting_price and min_increment and
preserves the admission invariant of the stored bids. -/
theorem place_bid_preserves (auction : Auction) (item : CatalogueItem)
    (bidder_id : Nat) (amount now : Int) (new_bid_id : Nat) :
    ((place_bid auction item bidder_id amount now new_bid_id).1).starting_price =
        auction.starting_price ∧
      ((place_bid auction item bidder_id amount now new_bid_id).1).min_increment =
        auction.min_increment ∧
      (bidsOK auction.starting_price auction.min_increment auction.bids →
        bidsOK auction.starting_price auction.min_increment
          ((place_bid auction item bidder_id amount now new_bid_id).1).bids) := by
  simp only [place_bid]
  repeat' split
  all_goals refine ⟨rfl, rfl, fun hOK => ?_⟩
  all_goals try exact hOK
  all_goals rename_i hmin hseller
  all_goals rw [not_lt] at hmin
  all_goals simp only [get_current_bidding_price] at hmin
  all_goals dsimp only at hmin ⊢
  all_goals refine bidsOK_append _ _ _ _ hOK (fun hnil => ?_) (fun x hx => ?_)
  all_goals dsimp only
  all_goals first
    | (simp only [hnil] at hmin
       omega)
    | (have h1 := amount_le_current auction x hx
       simp only [get_current_bidding_price] at h1
       omega)

/-- Replaying any request sequence keeps starting_price and min_increment
and preserves the admission invariant. -/
theorem run_bids_preserves (events : List BidEvent) :
    ∀ (auction : Auction) (item : CatalogueItem),
      (run_bids auction item events).starting_price = auction.starting_price ∧
        (run_bids auction item events).min_increment = auction.min_increment ∧
        (bidsOK auction.starting_price auction.min_increment auction.bids →
          bidsOK auction.starting_price auction.min_increment
            (run_bids auction item events).bids) := by
  induction events with
  | nil => exact fun auction item => ⟨rfl, rfl, fun h => h⟩
  | cons e es ih =>
    intro auction item
    have hp := place_bid_preserves auction item e.bidder_id e.amount e.now e.new_bid_id
    have hr : run_bids auction item (e :: es) =
        run_bids ((place_bid auction item e.bidder_id e.amount e.now e.new_bid_id).1) item es :=
      rfl
    obtain ⟨h1, h2, h3⟩ := ih ((place_bid auction item e.bidder_id e.amount e.now e.new_bid_id).1) item
    rw [hp.1] at h1
    rw [hp.2.1] at h2
    rw [hp.1, hp.2.1] at h3
    exact ⟨by rw [hr, h1], by rw [hr, h2], fun hOK => by
      rw [hr]
      exact h3 (hp.2.2 hOK)⟩

/-- C7.  The claim says the admitted amounts are strictly increasing for
every auction; with min_increment = 0 (allowed: the column has no lower
bound) a second bid equal to the current maximum passes the `amount <
current + increment` check, so two bids of 100 are both admitted and the
sequence 100, 100 is not strictly increasing. -/
theorem monotonic_price_strict_cex :
    auctionIncZero.min_increment = 0 ∧
      (run_bids auctionIncZero item5 [⟨2, 100, 10, 1⟩, ⟨3, 100, 20, 2⟩]).bids.map Bid.amount =
        [100, 100] ∧
      ¬ List.Chain' (fun x y : Bid => x.amount < y.amount)
          (run_bids auctionIncZero item5 [⟨2, 100, 10, 1⟩, ⟨3, 100, 20, 2⟩]).bids := by
  refine ⟨rfl, by decide, fun hchain => ?_⟩
  have hb : (run_bids auctionIncZero item5 [⟨2, 100, 10, 1⟩, ⟨3, 100, 20, 2⟩]).bids =
      [{ bid_id := 1, auction_id := 3, bidder_id := 2, amount := 100, placed_at := 10 },
        { bid_id := 2, auction_id := 3, bidder_id := 3, amount := 100, placed_at := 20 }] := rfl
  rw [hb] at hchain
  simp [List.chain'_cons] at hchain

/-- C7 (amended).  For every auction started with an empty bid list and any
request sequence, consecutive admitted amounts (in placed_at order) differ
by at least min_increment, the first admitted amount is at least
starting_price + min_increment, and the sequence is strictly increasing
whenever min_increment > 0 (with min_increment = 0 equal consecutive
amounts are possible); a bid below current_price + min_increment on a
running auction is rejected with BidTooLow carrying the computed minimum,
the current price, and the increment. -/
theorem monotonic_price_spec :
    (∀ (auction : Auction) (item : CatalogueItem) (events : List BidEvent),
      auction.bids = [] →
        List.Chain' (fun x y : Bid => x.amount + auction.min_increment ≤ y.amount)
            (run_bids auction item events).bids ∧
          (∀ b, (run_bids auction item events).bids.head? = some b →
            auction.starting_price + auction.min_increment ≤ b.amount) ∧
          (0 < auction.min_increment →
            List.Chain' (fun x y : Bid => x.amount < y.amount) (run_bids auction item events).bids)) ∧
      (∀ (auction : Auction) (item : CatalogueItem) (bidder_id : Nat) (amount now : Int)
          (new_bid_id : Nat),
        now < auction.end_time → auction.start_time ≤ now →
          (auction.status = AuctionStatus.ACTIVE ∨ auction.status = AuctionStatus.SCHEDULED) →
          amount < get_current_bidding_price auction + auction.min_increment →
          (place_bid auction item bidder_id amount now new_bid_id).2 =
            Except.error
              (BidError.BidTooLow
                (get_current_bidding_price auction + auction.min_increment)
                (get_current_bidding_price auction) auction.min_increment)) := by
  constructor
  · intro auction item events hnil
    have h0 : bidsOK auction.starting_price auction.min_increment auction.bids := by
      rw [hnil]
      exact ⟨List.chain'_nil, fun b hb => by cases hb⟩
    have hOK := (run_bids_preserves events auction item).2.2 h0
    refine ⟨hOK.1, hOK.2, fun hpos => ?_⟩
    exact hOK.1.imp (fun a b h => by omega)
  · intro auction item bidder_id amount now new_bid_id h1 h2 h3 h4
    have hne : ¬ auction.end_time ≤ now := not_le.mpr h1
    have hngt : ¬ auction.start_time > now := not_lt.mpr h2
    rcases h3 with hA | hS
    · simp [place_bid, hne, hngt, hA, h4]
    · simp [place_bid, hne, hngt, hS, h2, h4, current_price_set_status]

/-- C7 (witness): the spec's scenario run (1050 then 1100 on a 1000/50
auction) satisfies the invariant, and a 1040 bid is rejected with
BidTooLow 1050/1000/50. -/
theorem monotonic_price_spec_witness :
    List.Chain'
        (fun x y : Bid => x.amount + auctionForwardScenario.min_increment ≤ y.amount)
        (run_bids auctionForwardScenario item5 [⟨2, 1050, 10, 1⟩, ⟨3, 1100, 20, 2⟩]).bids ∧
      (place_bid auctionForwardScenario item5 3 1040 20 9).2 =
        Except.error
          (BidError.BidTooLow
            (get_current_bidding_price auctionForwardScenario +
              auctionForwardScenario.min_increment)
            (get_current_bidding_price auctionForwardScenario)
            auctionForwardScenario.min_increment) := by
  constructor
  · exact (monotonic_price_spec.1 auctionForwardScenario item5
      [⟨2, 1050, 10, 1⟩, ⟨3, 1100, 20, 2⟩] rfl).1
  · exact monotonic_price_spec.2 auctionForwardScenario item5 3 1040 20 9
      (by decide) (by decide) (Or.inl rfl) (by decide)

/-- C10 (witness): the tie instance itself discharges the universal part at
a concrete success. -/
theorem bid_response_reports_new_bid_as_leader_witness :
    ∃ resp : BidResponse,
      (place_bid auctionIncZero item5 2 100 10 1).2 = Except.ok resp ∧
        resp.current_highest_bid = 100 ∧ resp.current_highest_bidder_id = 2 := by
  refine ⟨_, rfl, ?_⟩
  have h := bid_response_reports_new_bid_as_leader.1 auctionIncZero item5 2 100 10 1 _ rfl
  exact ⟨h.1, h.2.1⟩
